import Mathlib

/-!
# Verification of the LMArenaBridge distributed browser worker

Shallow embedding of `src/distributed_clients/browser_client.py`
(`class BrowserClient`): the worker's session/poll/execute/report
lifecycle.  Machine floats become exact rationals (`ℚ`); the Python
integer counters become `ℕ`/`ℤ`; the outbound report HTTP calls are
modelled as an explicit trace of `Report` values; the awaited executor
call inside `process_request` (which may return normally or raise) is a
parameter of type `ClientState → ExecResult`, instantiated with the
source's `simulate_browser_processing` where the claims concern it.
-/

/-- One outbound report HTTP call to `/api/browser/response.php`,
mirroring the three JSON payload shapes built by `send_chunk`,
`send_completion` and `send_error`. -/
inductive Report where
  | chunk (request_id : String) (content : String) (sequence : ℕ)
  | complete (request_id : String) (full_response : String) (response_time_ms : ℚ)
  | error (request_id : String) (error_message : String) (error_type : String)
deriving DecidableEq, Repr

/-- The `request` object delivered by a poll response:
`request_id`, `model`, `messages`, and the optional `stream` field
(read in the source as `request_info.get('stream', True)`). -/
structure Request where
  request_id : String
  model : String
  messages : List (String × String)
  stream : Option Bool
deriving DecidableEq, Repr

/-- The mutable attributes of `BrowserClient` that the polling loop and
request processing touch.  `current_load` is embedded as `ℤ` so that the
no-underflow part of the load invariant is a real statement. -/
structure ClientState where
  session_id : Option String
  max_concurrent : ℕ
  current_load : ℤ
  total_requests : ℕ
  successful_requests : ℕ
  total_response_time : ℚ
  base_poll_interval : ℚ
  current_poll_interval : ℚ
deriving DecidableEq, Repr

/-- Embeds `BrowserClient.__init__`: no session yet, zero counters, base and
current poll interval both 5 seconds. -/
def initialState (maxc : ℕ) : ClientState :=
  { session_id := none
    max_concurrent := maxc
    current_load := 0
    total_requests := 0
    successful_requests := 0
    total_response_time := 0
    base_poll_interval := 5
    current_poll_interval := 5 }

/-- Embeds `BrowserClient.register` on a 200 response: the dispatcher-issued
session id is stored.  (A non-200 response raises and is fatal; no state
results from it.) -/
def registered (s : ClientState) (sid : String) : ClientState :=
  { s with session_id := some sid }

/-- Embeds `BrowserClient.send_response`: if there is no session id the method
logs a warning and returns without making an HTTP call; otherwise it
posts the payload once (a non-2xx or transport error is logged and
dropped).  The method assigns no attribute, so the state is returned
unchanged in both branches. -/
def send_response (s : ClientState) (response_data : Report) :
    ClientState × List Report :=
  match s.session_id with
  | none => (s, [])
  | some _ => (s, [response_data])

/-- Embeds `BrowserClient.send_chunk`: builds the `type:"chunk"` payload and
delegates to `send_response`. -/
def send_chunk (s : ClientState) (request_id : String) (content : String)
    (sequence : ℕ) : ClientState × List Report :=
  send_response s (Report.chunk request_id content sequence)

/-- Embeds `BrowserClient.send_completion`: builds the `type:"complete"` payload
and delegates to `send_response`. -/
def send_completion (s : ClientState) (request_id : String)
    (full_response : String) (response_time_ms : ℚ) : ClientState × List Report :=
  send_response s (Report.complete request_id full_response response_time_ms)

/-- Embeds `BrowserClient.send_error`: builds the `type:"error"` payload with the
fixed classification `"processing_error"` and delegates to `send_response`. -/
def send_error (s : ClientState) (request_id : String)
    (error_message : String) : ClientState × List Report :=
  send_response s (Report.error request_id error_message "processing_error")

/-- The hard-coded chunk list of `simulate_browser_processing`. -/
def chunks : List String :=
  ["Hello", " there", "! This", " is", " a", " simulated", " response", "."]

/-- The `for i, chunk in enumerate(chunks)` loop of
`simulate_browser_processing`: each chunk is sent immediately with its
zero-based index as sequence number. -/
def stream_chunks (s : ClientState) (request_id : String) (cs : List String) :
    ClientState × List Report :=
  cs.enum.foldl
    (fun acc p =>
      let step := send_chunk acc.1 request_id p.2 p.1
      (step.1, acc.2 ++ step.2))
    (s, [])

/-- Outcome of the awaited executor call inside `process_request`'s `try`
block: either it returns normally having emitted `trace`, or it raises
with message `msg` after emitting `trace` (in Python, any awaited call
can raise; the reports already sent before the raise stay sent). -/
inductive ExecResult where
  | ok (trace : List Report)
  | raises (trace : List Report) (msg : String)
deriving DecidableEq, Repr

/-- Embeds `BrowserClient.simulate_browser_processing` as an executor outcome:
if `request_info.get('stream', True)` it emits the eight hard-coded
chunks via `send_chunk`; otherwise it just sleeps.  It returns normally
on any well-formed request. -/
def simulate_exec (s : ClientState) (req : Request) : ExecResult :=
  if req.stream.getD true then
    .ok (stream_chunks s req.request_id chunks).2
  else
    .ok []

/-- The two statements of `process_request` that run before the `try`
block: `self.current_load += 1` and `self.total_requests += 1`. -/
def begin_request (s : ClientState) : ClientState :=
  { s with
      current_load := s.current_load + 1
      total_requests := s.total_requests + 1 }

/-- The rest of `process_request`'s `try` block after the executor call
returned normally: increment the success counters, add the latency, send
the completion, then run the `finally` block (`self.current_load -= 1`). -/
def complete_request (s1 : ClientState) (req : Request) (rt : ℚ)
    (chunkTrace : List Report) : ClientState × List Report :=
  let s2 := { s1 with
                successful_requests := s1.successful_requests + 1
                total_response_time := s1.total_response_time + rt }
  let comp := send_completion s2 req.request_id "Simulated response" rt
  ({ comp.1 with current_load := comp.1.current_load - 1 },
   chunkTrace ++ comp.2)

/-- The `except` block of `process_request`: the caught exception's
message is reported via `send_error`, then the `finally` block runs
(`self.current_load -= 1`). -/
def fail_request (s1 : ClientState) (req : Request) (chunkTrace : List Report)
    (msg : String) : ClientState × List Report :=
  let err := send_error s1 req.request_id msg
  ({ err.1 with current_load := err.1.current_load - 1 },
   chunkTrace ++ err.2)

/-- Embeds `BrowserClient.process_request`.  `rt` is the measured wall-clock
latency in milliseconds (`(time.time() - start_time) * 1000`).  `execOf`
is the awaited executor call; on `.ok` the success counters are updated
and a completion is sent, on `.raises` the exception is caught and an
error report is sent.  The `finally` block decrements `current_load` on
both paths — the single release path. -/
def process_request (s : ClientState) (req : Request) (rt : ℚ)
    (execOf : ClientState → ExecResult) : ClientState × List Report :=
  let s1 := begin_request s
  match execOf s1 with
  | .ok chunkTrace => complete_request s1 req rt chunkTrace
  | .raises chunkTrace msg => fail_request s1 req chunkTrace msg

/-- A poll response as seen by `poll_for_requests`: transport failure or
non-200 (both only logged), an idle body `{has_request:false}` with an
optional `poll_interval` field, or an assigned request. -/
inductive PollResponse where
  | failure
  | idle (poll_interval : Option ℚ)
  | assigned (req : Request)

/-- Embeds `BrowserClient.poll_for_requests`: skip entirely when unregistered;
on an assigned request, `await self.process_request(...)`; on an idle
body, adopt `min(data.get('poll_interval', base_poll_interval), 30)` as
the current poll interval; transport failures and non-200 responses are
caught and logged inside this method. -/
def poll_for_requests (s : ClientState) (resp : PollResponse) (rt : ℚ)
    (execOf : ClientState → ExecResult) : ClientState × List Report :=
  match s.session_id with
  | none => (s, [])
  | some _ =>
      match resp with
      | .failure => (s, [])
      | .idle r =>
          ({ s with current_poll_interval := min (r.getD s.base_poll_interval) 30 },
           [])
      | .assigned req => process_request s req rt execOf

/-- Embeds `BrowserClient.update_poll_interval`: saturated → back off by ×1.5
capped at 30; idle → speed up by ×0.8 floored at 1; otherwise reset to
the base interval. -/
def update_poll_interval (s : ClientState) : ClientState :=
  if (s.max_concurrent : ℤ) ≤ s.current_load then
    { s with current_poll_interval := min (s.current_poll_interval * 1.5) 30 }
  else if s.current_load = 0 then
    { s with current_poll_interval := max (s.current_poll_interval * 0.8) 1 }
  else
    { s with current_poll_interval := s.base_poll_interval }

/-- One iteration of `BrowserClient.polling_loop`: recompute the adaptive
interval, poll (dispatching to `process_request` when work is assigned),
then `await asyncio.sleep(self.current_poll_interval)`.  The result is
the next state, the report trace of the iteration, and the duration slept
before the next poll.  `poll_for_requests` catches its own transport
errors, so the loop body returns normally on `PollResponse.failure` and
the loop's `except` branch (a fixed 5-second sleep) is not reached by
poll transport failures. -/
def poll_cycle (s : ClientState) (resp : PollResponse) (rt : ℚ)
    (execOf : ClientState → ExecResult) : ClientState × List Report × ℚ :=
  let s1 := update_poll_interval s
  let pr := poll_for_requests s1 resp rt execOf
  (pr.1, pr.2, pr.1.current_poll_interval)

/-- States of the worker reachable after registration by iterations of
the polling loop whose dispatcher responses all satisfy `P`.  `rt` and
`execOf` are arbitrary at every step: any latency, any executor
behaviour. -/
inductive ReachableW (maxc : ℕ) (sid : String) (P : PollResponse → Prop) :
    ClientState → Prop where
  | base : ReachableW maxc sid P (registered (initialState maxc) sid)
  | step (s : ClientState) (resp : PollResponse) (rt : ℚ)
      (execOf : ClientState → ExecResult) (hs : ReachableW maxc sid P s)
      (hP : P resp) : ReachableW maxc sid P (poll_cycle s resp rt execOf).1

/-- Reachability with no constraint on the dispatcher's responses. -/
def Reachable (maxc : ℕ) (sid : String) : ClientState → Prop :=
  ReachableW maxc sid (fun _ => True)

/-- Dispatcher responses whose idle recommendation, when present, is at
least 1 second. -/
def recommendedOK : PollResponse → Prop
  | .idle (some r) => 1 ≤ r
  | _ => True

/-- Embeds `BrowserClient.get_success_rate`: 100 when no request was attempted,
else the percentage of successful requests. -/
def get_success_rate (s : ClientState) : ℚ :=
  if s.total_requests = 0 then 100
  else ((s.successful_requests : ℚ) / (s.total_requests : ℚ)) * 100

/-- The adaptive-interval recomputation as the specification states it,
written from the spec's words (§4.2) for comparison with
`update_poll_interval`. -/
def spec_interval (interval : ℚ) (load : ℤ) (maxc : ℕ) (base : ℚ) : ℚ :=
  if (maxc : ℤ) ≤ load then min (interval * 1.5) 30
  else if load = 0 then max (interval * 0.8) 1
  else base

/-- Classifier: is this report a chunk report? -/
def Report.isChunk : Report → Bool
  | .chunk .. => true
  | _ => false

/-- Classifier: is this report a completion report? -/
def Report.isComplete : Report → Bool
  | .complete .. => true
  | _ => false

/-- Classifier: is this report an error report? -/
def Report.isError : Report → Bool
  | .error .. => true
  | _ => false

/-- The request id a report is about. -/
def Report.rid : Report → String
  | .chunk i .. => i
  | .complete i .. => i
  | .error i .. => i

/-- The sequence number of a chunk report, `none` for the other kinds. -/
def Report.seq : Report → Option ℕ
  | .chunk _ _ n => some n
  | _ => none

/-! ### Basic facts about the report transport -/

theorem send_response_fst (s : ClientState) (r : Report) :
    (send_response s r).1 = s := by
  unfold send_response
  cases s.session_id <;> rfl

theorem send_response_none (s : ClientState) (r : Report)
    (h : s.session_id = none) : send_response s r = (s, []) := by
  unfold send_response
  rw [h]

theorem send_response_some (s : ClientState) (r : Report) (sid : String)
    (h : s.session_id = some sid) : send_response s r = (s, [r]) := by
  unfold send_response
  rw [h]

/-! ### Equations for `process_request` -/

theorem process_request_ok (s : ClientState) (req : Request) (rt : ℚ)
    (execOf : ClientState → ExecResult) (tr : List Report)
    (h : execOf (begin_request s) = .ok tr) :
    process_request s req rt execOf = complete_request (begin_request s) req rt tr := by
  simp only [process_request, h]

theorem process_request_raises (s : ClientState) (req : Request) (rt : ℚ)
    (execOf : ClientState → ExecResult) (tr : List Report) (msg : String)
    (h : execOf (begin_request s) = .raises tr msg) :
    process_request s req rt execOf = fail_request (begin_request s) req tr msg := by
  simp only [process_request, h]

theorem complete_request_fst (s1 : ClientState) (req : Request) (rt : ℚ)
    (tr : List Report) :
    (complete_request s1 req rt tr).1 =
      { s1 with
          successful_requests := s1.successful_requests + 1
          total_response_time := s1.total_response_time + rt
          current_load := s1.current_load - 1 } := by
  unfold complete_request send_completion
  simp only [send_response_fst]

theorem fail_request_fst (s1 : ClientState) (req : Request) (tr : List Report)
    (msg : String) :
    (fail_request s1 req tr msg).1 =
      { s1 with current_load := s1.current_load - 1 } := by
  unfold fail_request send_error
  simp only [send_response_fst]

theorem complete_request_snd_some (s1 : ClientState) (sid : String)
    (req : Request) (rt : ℚ) (tr : List Report) (hs : s1.session_id = some sid) :
    (complete_request s1 req rt tr).2 =
      tr ++ [Report.complete req.request_id "Simulated response" rt] := by
  simp [complete_request, send_completion, send_response, hs]

theorem fail_request_snd_some (s1 : ClientState) (sid : String) (req : Request)
    (tr : List Report) (msg : String) (hs : s1.session_id = some sid) :
    (fail_request s1 req tr msg).2 =
      tr ++ [Report.error req.request_id msg "processing_error"] := by
  simp [fail_request, send_error, send_response, hs]

/-- The load unit reserved by `begin_request` is released exactly once on
either exit path of `process_request`. -/
theorem process_request_load (s : ClientState) (req : Request) (rt : ℚ)
    (execOf : ClientState → ExecResult) :
    (process_request s req rt execOf).1.current_load = s.current_load := by
  cases h : execOf (begin_request s) with
  | ok tr =>
      rw [process_request_ok s req rt execOf tr h, complete_request_fst]
      simp [begin_request]
  | raises tr msg =>
      rw [process_request_raises s req rt execOf tr msg h, fail_request_fst]
      simp [begin_request]

/-- Frame: `process_request` touches neither the session nor the polling fields. -/
theorem process_request_frame (s : ClientState) (req : Request) (rt : ℚ)
    (execOf : ClientState → ExecResult) :
    (process_request s req rt execOf).1.session_id = s.session_id ∧
    (process_request s req rt execOf).1.max_concurrent = s.max_concurrent ∧
    (process_request s req rt execOf).1.base_poll_interval = s.base_poll_interval ∧
    (process_request s req rt execOf).1.current_poll_interval = s.current_poll_interval := by
  cases h : execOf (begin_request s) with
  | ok tr =>
      rw [process_request_ok s req rt execOf tr h, complete_request_fst]
      simp [begin_request]
  | raises tr msg =>
      rw [process_request_raises s req rt execOf tr msg h, fail_request_fst]
      simp [begin_request]

/-! ### The streaming loop -/

theorem stream_chunks_go (s : ClientState) (sid : String)
    (hs : s.session_id = some sid) (request_id : String)
    (l : List (ℕ × String)) :
    ∀ tr : List Report,
      l.foldl
        (fun acc p =>
          let step := send_chunk acc.1 request_id p.2 p.1
          (step.1, acc.2 ++ step.2)) (s, tr) =
      (s, tr ++ l.map fun p => Report.chunk request_id p.2 p.1) := by
  induction l with
  | nil => intro tr; simp
  | cons p l ih =>
      intro tr
      simp only [List.foldl_cons, List.map_cons]
      have hstep : send_chunk s request_id p.2 p.1 =
          (s, [Report.chunk request_id p.2 p.1]) := by
        unfold send_chunk
        exact send_response_some s _ sid hs
      simp only [hstep]
      rw [ih (tr ++ [Report.chunk request_id p.2 p.1])]
      simp

/-- With a registered session, the streaming loop emits one chunk report
per yielded chunk, tagged with its zero-based emission index. -/
theorem stream_chunks_some (s : ClientState) (sid : String)
    (hs : s.session_id = some sid) (request_id : String) (cs : List String) :
    stream_chunks s request_id cs =
      (s, cs.enum.map fun p => Report.chunk request_id p.2 p.1) := by
  unfold stream_chunks
  rw [stream_chunks_go s sid hs request_id cs.enum []]
  simp

/-! ### Equations for `poll_for_requests` and `poll_cycle` -/

theorem poll_for_requests_no_session (s : ClientState) (resp : PollResponse)
    (rt : ℚ) (execOf : ClientState → ExecResult) (h : s.session_id = none) :
    poll_for_requests s resp rt execOf = (s, []) := by
  simp only [poll_for_requests, h]

theorem poll_for_requests_failure (s : ClientState) (sid : String) (rt : ℚ)
    (execOf : ClientState → ExecResult) (h : s.session_id = some sid) :
    poll_for_requests s .failure rt execOf = (s, []) := by
  simp only [poll_for_requests, h]

theorem poll_for_requests_idle (s : ClientState) (sid : String)
    (r : Option ℚ) (rt : ℚ) (execOf : ClientState → ExecResult)
    (h : s.session_id = some sid) :
    poll_for_requests s (.idle r) rt execOf =
      ({ s with current_poll_interval := min (r.getD s.base_poll_interval) 30 },
       []) := by
  simp only [poll_for_requests, h]

theorem poll_for_requests_assigned (s : ClientState) (sid : String)
    (req : Request) (rt : ℚ) (execOf : ClientState → ExecResult)
    (h : s.session_id = some sid) :
    poll_for_requests s (.assigned req) rt execOf =
      process_request s req rt execOf := by
  simp only [poll_for_requests, h]

/-- Frame: `update_poll_interval` only rewrites `current_poll_interval`. -/
theorem update_poll_interval_frame (s : ClientState) :
    (update_poll_interval s).session_id = s.session_id ∧
    (update_poll_interval s).max_concurrent = s.max_concurrent ∧
    (update_poll_interval s).current_load = s.current_load ∧
    (update_poll_interval s).total_requests = s.total_requests ∧
    (update_poll_interval s).successful_requests = s.successful_requests ∧
    (update_poll_interval s).base_poll_interval = s.base_poll_interval := by
  unfold update_poll_interval
  split_ifs <;> simp

/-- The recomputed interval stays in `[1, 30]` provided the previous one
was there and the base interval is the configured 5 seconds. -/
theorem update_poll_interval_bounds (s : ClientState)
    (hbase : s.base_poll_interval = 5)
    (h1 : 1 ≤ s.current_poll_interval) (h2 : s.current_poll_interval ≤ 30) :
    1 ≤ (update_poll_interval s).current_poll_interval ∧
    (update_poll_interval s).current_poll_interval ≤ 30 := by
  unfold update_poll_interval
  split_ifs with hA hB
  · refine ⟨le_min (by linarith) (by norm_num), min_le_right _ _⟩
  · refine ⟨le_max_right _ _, max_le (by linarith) (by norm_num)⟩
  · rw [hbase]; norm_num

/-! ### Invariants of the polling loop -/

/-- Fields the polling loop never changes, plus the key structural fact
that between iterations the load is back to 0: every assigned request is
awaited to completion inside its own iteration. -/
theorem reachable_frame (maxc : ℕ) (sid : String) (P : PollResponse → Prop)
    (s : ClientState) (h : ReachableW maxc sid P s) :
    s.session_id = some sid ∧ s.max_concurrent = maxc ∧
    s.base_poll_interval = 5 ∧ s.current_load = 0 := by
  induction h with
  | base => exact ⟨rfl, rfl, rfl, rfl⟩
  | step s resp rt execOf hs hP ih =>
      obtain ⟨h1, h2, h3, h4⟩ := ih
      have hu := update_poll_interval_frame s
      have h1u : (update_poll_interval s).session_id = some sid := by
        rw [hu.1, h1]
      simp only [poll_cycle]
      cases resp with
      | failure =>
          rw [poll_for_requests_failure _ sid _ _ h1u]
          exact ⟨h1u, by rw [hu.2.1, h2], by rw [hu.2.2.2.2.2, h3],
            by rw [hu.2.2.1, h4]⟩
      | idle r =>
          rw [poll_for_requests_idle _ sid _ _ _ h1u]
          exact ⟨h1u, by simp [hu.2.1, h2], by simp [hu.2.2.2.2.2, h3],
            by simp [hu.2.2.1, h4]⟩
      | assigned req =>
          rw [poll_for_requests_assigned _ sid _ _ _ h1u]
          have hf := process_request_frame (update_poll_interval s) req rt execOf
          have hl := process_request_load (update_poll_interval s) req rt execOf
          refine ⟨by rw [hf.1, h1u], by rw [hf.2.1, hu.2.1, h2],
            by rw [hf.2.2.1, hu.2.2.2.2.2, h3], by rw [hl, hu.2.2.1, h4]⟩

/-- Interval invariant: as long as every dispatcher recommendation that
gets adopted is at least 1 second, the current poll interval stays in
`[1, 30]` at every reachable state. -/
theorem reachable_interval_bounds (maxc : ℕ) (sid : String) (s : ClientState)
    (h : ReachableW maxc sid recommendedOK s) :
    1 ≤ s.current_poll_interval ∧ s.current_poll_interval ≤ 30 := by
  induction h with
  | base => norm_num [registered, initialState]
  | step s resp rt execOf hs hP ih =>
      obtain ⟨hf1, _, hf3, _⟩ := reachable_frame _ _ _ _ hs
      have h1u : (update_poll_interval s).session_id = some sid := by
        rw [(update_poll_interval_frame s).1, hf1]
      have hb := update_poll_interval_bounds s hf3 ih.1 ih.2
      simp only [poll_cycle]
      cases resp with
      | failure => rw [poll_for_requests_failure _ sid _ _ h1u]; exact hb
      | idle r =>
          rw [poll_for_requests_idle _ sid _ _ _ h1u]
          cases r with
          | none =>
              have hbase : (update_poll_interval s).base_poll_interval = 5 := by
                rw [(update_poll_interval_frame s).2.2.2.2.2, hf3]
              simp [hbase]
          | some rv =>
              have hr : (1 : ℚ) ≤ rv := hP
              exact ⟨le_min hr (by norm_num), by simp [min_le_right]⟩
      | assigned req =>
          rw [poll_for_requests_assigned _ sid _ _ _ h1u]
          rw [(process_request_frame _ req rt execOf).2.2.2]
          exact hb

/-! ### Claim theorems -/

/-- C6: the adaptive interval recomputation performed before each poll
matches the specification's three-case formula: saturated →
`min(interval × 1.5, 30)`; idle → `max(interval × 0.8, 1)`; otherwise the
configured base interval.  No other field changes. -/
theorem C6_update_matches_spec (s : ClientState) :
    update_poll_interval s =
      { s with current_poll_interval := (spec_interval s.current_poll_interval
          s.current_load s.max_concurrent s.base_poll_interval) } := by
  unfold update_poll_interval spec_interval
  split_ifs <;> rfl

/-- C9: for every valid counter state (`successful ≤ total`), the derived
success rate is 100 when `total = 0` and `100 × successful / total`
otherwise. -/
theorem C9_success_rate (s : ClientState)
    (h : s.successful_requests ≤ s.total_requests) :
    get_success_rate s =
      if s.total_requests = 0 then 100
      else 100 * (s.successful_requests : ℚ) / (s.total_requests : ℚ) := by
  unfold get_success_rate
  split_ifs
  · rfl
  · ring

/-- Concrete worker state used by witnesses: registered, 3 of 4 requests
successful. -/
def wState : ClientState :=
  { registered (initialState 5) "w" with
      total_requests := 4
      successful_requests := 3 }

/-- Witness for C9 at a concrete counter state. -/
theorem C9_success_rate_witness :
    wState.successful_requests ≤ wState.total_requests ∧
    get_success_rate wState =
      if wState.total_requests = 0 then 100
      else 100 * (wState.successful_requests : ℚ) / (wState.total_requests : ℚ) :=
  ⟨by norm_num [wState], C9_success_rate wState (by norm_num [wState])⟩

/-- C7: on an idle poll outcome carrying a recommendation `r`, the worker
adopts `min(r, 30)` as the sleep before the next poll, regardless of the
locally computed interval; when `r ≤ 30` the next poll therefore occurs
after exactly `r` seconds. -/
theorem C7_adopt_recommended (s : ClientState) (sid : String) (r rt : ℚ)
    (execOf : ClientState → ExecResult) (hs : s.session_id = some sid) :
    (poll_cycle s (.idle (some r)) rt execOf).2.2 = min r 30 ∧
    (r ≤ 30 → (poll_cycle s (.idle (some r)) rt execOf).2.2 = r) := by
  have h1u : (update_poll_interval s).session_id = some sid := by
    rw [(update_poll_interval_frame s).1, hs]
  simp only [poll_cycle]
  rw [poll_for_requests_idle _ sid _ _ _ h1u]
  refine ⟨by simp, fun h => by simp [min_eq_left h]⟩

/-- Witness for C7: Scenario A — the dispatcher answers
`has_request:false, poll_interval:10` and the next poll occurs after 10
seconds. -/
theorem C7_adopt_recommended_witness :
    (registered (initialState 5) "w").session_id = some "w" ∧
    (poll_cycle (registered (initialState 5) "w") (.idle (some 10)) 0
        (fun _ => .ok [])).2.2 = min 10 30 ∧
    ((10 : ℚ) ≤ 30 → (poll_cycle (registered (initialState 5) "w")
        (.idle (some 10)) 0 (fun _ => .ok [])).2.2 = 10) :=
  ⟨rfl, C7_adopt_recommended (registered (initialState 5) "w") "w" 10 0
    (fun _ => .ok []) rfl⟩

/-- C8 (amended): a poll transport failure is caught and logged inside
the poll call, the loop continues with no report emitted and no state
change beyond the interval recomputation, and the worker sleeps the
current adaptive interval — not a fixed 5 seconds — before retrying. -/
theorem C8_transport_failure (s : ClientState) (rt : ℚ)
    (execOf : ClientState → ExecResult) :
    (poll_cycle s .failure rt execOf).1 = update_poll_interval s ∧
    (poll_cycle s .failure rt execOf).2.1 = [] ∧
    (poll_cycle s .failure rt execOf).2.2 =
      (update_poll_interval s).current_poll_interval := by
  simp only [poll_cycle]
  cases h : (update_poll_interval s).session_id with
  | none => rw [poll_for_requests_no_session _ _ _ _ h]; exact ⟨rfl, rfl, rfl⟩
  | some sid => rw [poll_for_requests_failure _ sid _ _ h]; exact ⟨rfl, rfl, rfl⟩

/-- C8 counterexample: from the freshly registered state (idle, interval
5), a cycle whose poll suffers a transport failure sleeps
`max(5 × 0.8, 1) = 4` seconds, not the fixed 5 seconds the claim
states. -/
theorem C8_counterexample :
    (poll_cycle (registered (initialState 5) "w") .failure 0
        (fun _ => .ok [])).2.2 = 4 ∧ (4 : ℚ) ≠ 5 := by
  constructor
  · simp [poll_cycle, poll_for_requests, update_poll_interval, registered,
      initialState]
    norm_num
  · norm_num

/-- C10: with no session id, every report operation returns normally
after only a warning log: no HTTP call is made (empty trace) and the
state is unchanged. -/
theorem C10_no_session_reports (s : ClientState) (h : s.session_id = none)
    (rid c fr msg : String) (n : ℕ) (rt : ℚ) :
    send_chunk s rid c n = (s, []) ∧
    send_completion s rid fr rt = (s, []) ∧
    send_error s rid msg = (s, []) := by
  unfold send_chunk send_completion send_error
  exact ⟨send_response_none s _ h, send_response_none s _ h,
    send_response_none s _ h⟩

/-- Witness for C10 at the unregistered initial state. -/
theorem C10_no_session_reports_witness :
    (initialState 5).session_id = none ∧
    (send_chunk (initialState 5) "r1" "hi" 0 = (initialState 5, []) ∧
     send_completion (initialState 5) "r1" "done" 7 = (initialState 5, []) ∧
     send_error (initialState 5) "r1" "boom" = (initialState 5, [])) :=
  ⟨rfl, C10_no_session_reports (initialState 5) rfl "r1" "hi" "done" "boom" 0 7⟩

/-- C1 (amended): in every state reachable by the polling loop whose
adopted dispatcher recommendations are all at least 1 second, the current
poll interval lies in `[1, 30]`.  (Without that proviso the lower bound
fails: the adoption path only caps at 30, see `C1_counterexample`.) -/
theorem C1_interval_invariant (maxc : ℕ) (sid : String) (s : ClientState)
    (h : ReachableW maxc sid recommendedOK s) :
    1 ≤ s.current_poll_interval ∧ s.current_poll_interval ≤ 30 :=
  reachable_interval_bounds maxc sid s h

/-- Witness for C1 at the freshly registered state. -/
theorem C1_interval_invariant_witness :
    ReachableW 5 "w" recommendedOK (registered (initialState 5) "w") ∧
    (1 ≤ (registered (initialState 5) "w").current_poll_interval ∧
     (registered (initialState 5) "w").current_poll_interval ≤ 30) :=
  ⟨ReachableW.base, C1_interval_invariant 5 "w" _ ReachableW.base⟩

/-- The reachable state refuting C1 as stated: one loop iteration in
which the dispatcher answers idle with `poll_interval = 0`. -/
def c1State : ClientState :=
  (poll_cycle (registered (initialState 5) "w") (.idle (some 0)) 0
    (fun _ => .ok [])).1

/-- C1 counterexample: the adoption path `min(recommended, 30)` has no
lower bound, so a dispatcher recommendation of 0 seconds yields a
reachable state whose poll interval is 0 < 1. -/
theorem C1_counterexample :
    Reachable 5 "w" c1State ∧ c1State.current_poll_interval < 1 := by
  constructor
  · exact ReachableW.step _ _ _ _ ReachableW.base trivial
  · simp [c1State, poll_cycle, poll_for_requests, update_poll_interval,
      registered, initialState]

/-- C2 (amended): the poll loop blocks on request execution.  An
iteration that receives an assigned request runs `process_request` to
completion before returning: its own report trace already contains the
request's terminal report (completion or error) and the load is already
released (back to the pre-iteration value), so execution does not
continue concurrently with subsequent polling. -/
theorem C2_poll_blocks (s : ClientState) (sid : String) (req : Request)
    (rt : ℚ) (execOf : ClientState → ExecResult) (hs : s.session_id = some sid) :
    (poll_cycle s (.assigned req) rt execOf).1.current_load = s.current_load ∧
    ∃ r ∈ (poll_cycle s (.assigned req) rt execOf).2.1,
      r.rid = req.request_id ∧ (r.isComplete = true ∨ r.isError = true) := by
  have h1u : (update_poll_interval s).session_id = some sid := by
    rw [(update_poll_interval_frame s).1, hs]
  have hb : (begin_request (update_poll_interval s)).session_id = some sid := h1u
  simp only [poll_cycle]
  rw [poll_for_requests_assigned _ sid _ _ _ h1u]
  refine ⟨?_, ?_⟩
  · rw [process_request_load, (update_poll_interval_frame s).2.2.1]
  · cases hx : execOf (begin_request (update_poll_interval s)) with
    | ok tr =>
        rw [process_request_ok _ _ _ _ _ hx,
          complete_request_snd_some _ sid _ _ _ hb]
        exact ⟨Report.complete req.request_id "Simulated response" rt,
          List.mem_append_right _ (List.mem_singleton.mpr rfl),
          rfl, Or.inl rfl⟩
    | raises tr msg =>
        rw [process_request_raises _ _ _ _ _ _ hx,
          fail_request_snd_some _ sid _ _ _ hb]
        exact ⟨Report.error req.request_id msg "processing_error",
          List.mem_append_right _ (List.mem_singleton.mpr rfl),
          rfl, Or.inr rfl⟩

/-- Witness for C2 (amended) at the registered initial state. -/
theorem C2_poll_blocks_witness :
    (registered (initialState 5) "w").session_id = some "w" ∧
    ((poll_cycle (registered (initialState 5) "w")
        (.assigned ⟨"r1", "m", [], some true⟩) 100
        (fun _ => .ok [])).1.current_load =
      (registered (initialState 5) "w").current_load ∧
     ∃ r ∈ (poll_cycle (registered (initialState 5) "w")
        (.assigned ⟨"r1", "m", [], some true⟩) 100
        (fun _ => .ok [])).2.1,
        r.rid = "r1" ∧ (r.isComplete = true ∨ r.isError = true)) :=
  ⟨rfl, C2_poll_blocks (registered (initialState 5) "w") "w"
    ⟨"r1", "m", [], some true⟩ 100 (fun _ => .ok []) rfl⟩

/-- The streaming request used in the C2 counterexample. -/
def c2req : Request := ⟨"r1", "m", [], some true⟩

/-- C2 counterexample: with the source's own executor
(`simulate_browser_processing`), the very poll iteration that received
the assigned request already returns with the request fully executed:
its trace contains the completion report and `current_load` is back to
0.  Execution therefore did not run concurrently with further polling —
the loop awaited it. -/
theorem C2_counterexample :
    (poll_cycle (registered (initialState 5) "w") (.assigned c2req) 100
        (fun st => simulate_exec st c2req)).1.current_load = 0 ∧
    ((poll_cycle (registered (initialState 5) "w") (.assigned c2req) 100
        (fun st => simulate_exec st c2req)).2.1.countP Report.isComplete) = 1 := by
  have hs : (registered (initialState 5) "w").session_id = some "w" := rfl
  have h1u : (update_poll_interval
      (registered (initialState 5) "w")).session_id = some "w" := by
    rw [(update_poll_interval_frame _).1, hs]
  have hb : (begin_request (update_poll_interval
      (registered (initialState 5) "w"))).session_id = some "w" := h1u
  have hexec : simulate_exec (begin_request (update_poll_interval
      (registered (initialState 5) "w"))) c2req =
      .ok (chunks.enum.map fun p => Report.chunk c2req.request_id p.2 p.1) := by
    unfold simulate_exec
    rw [stream_chunks_some _ "w" hb c2req.request_id chunks]
    simp [c2req]
  constructor
  · simp only [poll_cycle]
    rw [poll_for_requests_assigned _ "w" _ _ _ h1u, process_request_load]
    rfl
  · simp only [poll_cycle]
    rw [poll_for_requests_assigned _ "w" _ _ _ h1u,
      process_request_ok _ _ _ _ _ hexec,
      complete_request_snd_some _ "w" _ _ _ hb, List.countP_append]
    have hz : (chunks.enum.map fun p =>
        Report.chunk c2req.request_id p.2 p.1).countP Report.isComplete = 0 := by
      rw [List.countP_eq_zero]
      intro a ha
      obtain ⟨p, -, rfl⟩ := List.mem_map.mp ha
      simp [Report.isComplete]
    rw [hz]
    simp [Report.isComplete]

/-- C3: at every reachable state the load counter satisfies
`0 ≤ currentLoad ≤ maxConcurrent`; a request start increments it exactly
once (`begin_request`), and `process_request` releases it exactly once
through the single `finally` path, whichever way the executor ends. -/
theorem C3_load_invariant (maxc : ℕ) (sid : String) (s : ClientState)
    (h : Reachable maxc sid s) (req : Request) (rt : ℚ)
    (execOf : ClientState → ExecResult) :
    (0 ≤ s.current_load ∧ s.current_load ≤ (maxc : ℤ)) ∧
    (begin_request s).current_load = s.current_load + 1 ∧
    (process_request s req rt execOf).1.current_load = s.current_load := by
  obtain ⟨-, -, -, h4⟩ := reachable_frame maxc sid _ s h
  exact ⟨⟨by simp [h4], by simp [h4]⟩, rfl,
    process_request_load s req rt execOf⟩

/-- Witness for C3 at the registered initial state. -/
theorem C3_load_invariant_witness :
    Reachable 5 "w" (registered (initialState 5) "w") ∧
    ((0 ≤ (registered (initialState 5) "w").current_load ∧
      (registered (initialState 5) "w").current_load ≤ ((5 : ℕ) : ℤ)) ∧
     (begin_request (registered (initialState 5) "w")).current_load =
       (registered (initialState 5) "w").current_load + 1 ∧
     (process_request (registered (initialState 5) "w") c2req 100
        (fun _ => .ok [])).1.current_load =
       (registered (initialState 5) "w").current_load) :=
  ⟨ReachableW.base,
   C3_load_invariant 5 "w" _ ReachableW.base c2req 100 (fun _ => .ok [])⟩

/-- C4: a streaming request processed with the source executor emits one
chunk report per yielded chunk, immediately and independently, with
sequence numbers exactly `0..7` in emission order (the executor yields 8
chunks), followed by exactly one completion report. -/
theorem C4_streaming_reports (s : ClientState) (sid : String) (req : Request)
    (rt : ℚ) (hs : s.session_id = some sid)
    (hstream : req.stream.getD true = true) :
    ∃ pre,
      (process_request s req rt (fun st => simulate_exec st req)).2 =
        pre ++ [Report.complete req.request_id "Simulated response" rt] ∧
      (∀ r ∈ pre, r.isChunk = true ∧ r.rid = req.request_id) ∧
      pre.length = 8 ∧
      pre.filterMap Report.seq = List.range 8 ∧
      (process_request s req rt (fun st => simulate_exec st req)).2.countP
        Report.isComplete = 1 := by
  have hb : (begin_request s).session_id = some sid := hs
  have hexec : simulate_exec (begin_request s) req =
      .ok (chunks.enum.map fun p => Report.chunk req.request_id p.2 p.1) := by
    unfold simulate_exec
    rw [stream_chunks_some _ sid hb req.request_id chunks]
    simp [hstream]
  refine ⟨chunks.enum.map fun p => Report.chunk req.request_id p.2 p.1,
    ?_, ?_, ?_, ?_, ?_⟩
  · rw [process_request_ok _ _ _ _ _ hexec,
      complete_request_snd_some _ sid _ _ _ hb]
  · intro r hr
    obtain ⟨p, -, rfl⟩ := List.mem_map.mp hr
    exact ⟨rfl, rfl⟩
  · rw [List.length_map]
    decide
  · rw [List.filterMap_map]
    have hcomp : (Report.seq ∘ fun p : ℕ × String =>
        Report.chunk req.request_id p.2 p.1) = some ∘ Prod.fst := rfl
    rw [hcomp, List.filterMap_eq_map]
    decide
  · rw [process_request_ok _ _ _ _ _ hexec,
      complete_request_snd_some _ sid _ _ _ hb, List.countP_append]
    have hz : (chunks.enum.map fun p =>
        Report.chunk req.request_id p.2 p.1).countP Report.isComplete = 0 := by
      rw [List.countP_eq_zero]
      intro a ha
      obtain ⟨p, -, rfl⟩ := List.mem_map.mp ha
      simp [Report.isComplete]
    rw [hz]
    simp [Report.isComplete]

/-- Witness for C4: Scenario C at the registered initial state. -/
theorem C4_streaming_reports_witness :
    (registered (initialState 5) "w").session_id = some "w" ∧
    c2req.stream.getD true = true ∧
    (∃ pre,
      (process_request (registered (initialState 5) "w") c2req 100
          (fun st => simulate_exec st c2req)).2 =
        pre ++ [Report.complete c2req.request_id "Simulated response" 100] ∧
      (∀ r ∈ pre, r.isChunk = true ∧ r.rid = c2req.request_id) ∧
      pre.length = 8 ∧
      pre.filterMap Report.seq = List.range 8 ∧
      (process_request (registered (initialState 5) "w") c2req 100
          (fun st => simulate_exec st c2req)).2.countP
        Report.isComplete = 1) :=
  ⟨rfl, rfl, C4_streaming_reports (registered (initialState 5) "w") "w"
    c2req 100 rfl rfl⟩

/-- C5: when the executor raises, exactly one error report (classified
`processing_error`) is emitted for the request id, no completion report
is emitted, the load is released, the total counter increments and the
successful counter does not. -/
theorem C5_error_path (s : ClientState) (sid : String) (req : Request)
    (rt : ℚ) (ptrace : List Report) (msg : String)
    (hs : s.session_id = some sid)
    (hp : ∀ r ∈ ptrace, r.isChunk = true) :
    (process_request s req rt (fun _ => .raises ptrace msg)).2.countP
      Report.isError = 1 ∧
    (process_request s req rt (fun _ => .raises ptrace msg)).2.countP
      Report.isComplete = 0 ∧
    Report.error req.request_id msg "processing_error" ∈
      (process_request s req rt (fun _ => .raises ptrace msg)).2 ∧
    (process_request s req rt (fun _ => .raises ptrace msg)).1.current_load =
      s.current_load ∧
    (process_request s req rt (fun _ => .raises ptrace msg)).1.total_requests =
      s.total_requests + 1 ∧
    (process_request s req rt (fun _ => .raises ptrace msg)).1.successful_requests =
      s.successful_requests := by
  have hb : (begin_request s).session_id = some sid := hs
  have hx : (fun _ : ClientState => ExecResult.raises ptrace msg)
      (begin_request s) = .raises ptrace msg := rfl
  rw [process_request_raises _ _ _ _ _ _ hx,
    fail_request_snd_some _ sid _ _ _ hb, fail_request_fst, List.countP_append]
  have herr : ptrace.countP Report.isError = 0 := by
    rw [List.countP_eq_zero]
    intro a ha
    have := hp a ha
    cases a <;> simp_all [Report.isChunk, Report.isError]
  have hcomp : ptrace.countP Report.isComplete = 0 := by
    rw [List.countP_eq_zero]
    intro a ha
    have := hp a ha
    cases a <;> simp_all [Report.isChunk, Report.isComplete]
  refine ⟨?_, ?_, ?_, ?_, ?_, ?_⟩
  · rw [herr]; simp [Report.isError]
  · rw [List.countP_append, hcomp]; simp [Report.isComplete]
  · exact List.mem_append_right _ (List.mem_singleton.mpr rfl)
  · simp [begin_request]
  · simp [begin_request]
  · simp [begin_request]

/-- Witness for C5 with a one-chunk partial trace and message "boom". -/
theorem C5_error_path_witness :
    (registered (initialState 5) "w").session_id = some "w" ∧
    (∀ r ∈ [Report.chunk "r1" "Hello" 0], r.isChunk = true) ∧
    ((process_request (registered (initialState 5) "w") c2req 50
        (fun _ => .raises [Report.chunk "r1" "Hello" 0] "boom")).2.countP
      Report.isError = 1 ∧
     (process_request (registered (initialState 5) "w") c2req 50
        (fun _ => .raises [Report.chunk "r1" "Hello" 0] "boom")).2.countP
      Report.isComplete = 0 ∧
     Report.error c2req.request_id "boom" "processing_error" ∈
      (process_request (registered (initialState 5) "w") c2req 50
        (fun _ => .raises [Report.chunk "r1" "Hello" 0] "boom")).2 ∧
     (process_request (registered (initialState 5) "w") c2req 50
        (fun _ => .raises [Report.chunk "r1" "Hello" 0] "boom")).1.current_load =
      (registered (initialState 5) "w").current_load ∧
     (process_request (registered (initialState 5) "w") c2req 50
        (fun _ => .raises [Report.chunk "r1" "Hello" 0] "boom")).1.total_requests =
      (registered (initialState 5) "w").total_requests + 1 ∧
     (process_request (registered (initialState 5) "w") c2req 50
        (fun _ => .raises [Report.chunk "r1" "Hello" 0] "boom")).1.successful_requests =
      (registered (initialState 5) "w").successful_requests) :=
  ⟨rfl, by simp [Report.isChunk],
   C5_error_path (registered (initialState 5) "w") "w" c2req 50
    [Report.chunk "r1" "Hello" 0] "boom" rfl (by simp [Report.isChunk])⟩
